import Mathlib

/-
Verification of the streaming audio-classification pipeline of
arduino-audio-tools (TfLiteAudioStream.h and the parallel
TfLiteAudioOutput implementation).

Shallow embedding conventions:
  - C++ machine integers (int8_t, int32_t, int64_t) are modelled as
    unbounded Int; where a claim depends on a bounded domain the bound
    appears as an explicit hypothesis.  C++ integer division truncates
    toward zero, which is Int.tdiv in Lean.
  - C++ float is modelled as exact Rat; the float-to-integer conversion
    truncates toward zero (fTrunc below).
  - Labels (const char pointers into cfg.labels) are modelled by their
    indices.  The recognizer constructor initializes previous_top_label_
    to a string literal that is a distinct pointer from every entry of
    cfg.labels, which we model as Option Nat with none for that initial
    sentinel.
-/

namespace AudioTools

/-- Truncation toward zero of a rational, the semantics of a C++
float-to-integer conversion. -/
def fTrunc (q : ℚ) : ℤ :=
  if 0 ≤ q then ⌊q⌋ else ⌈q⌉

/-- TfQuantizer.quantize from TfLiteAudioStream.h: degenerate passthrough
when scale and zero point are both 0, otherwise value / scale + zero_point.
The function returns int8_t, so the float result is truncated toward zero;
the source applies no explicit saturation. -/
def TfQuantizer.quantize (value scale zero_point : ℚ) : ℤ :=
  if scale = 0 ∧ zero_point = 0 then fTrunc value
  else fTrunc (value / scale + zero_point)

/-- TfQuantizer.dequantize from TfLiteAudioStream.h:
(value - zero_point) * scale, with the same degenerate passthrough. -/
def TfQuantizer.dequantize (value : ℤ) (scale zero_point : ℚ) : ℚ :=
  if scale = 0 ∧ zero_point = 0 then (value : ℚ)
  else ((value : ℚ) - zero_point) * scale

/-- TfQuantizer.clip from TfLiteAudioStream.h, transcribed branch by
branch.  Note that the negative branch compares -value < -range. -/
def TfQuantizer.clip (value range : ℚ) : ℚ :=
  if 0 ≤ value then
    if value > range then range else value
  else
    if -value < -range then -range else value

/-- TfQuantizer.dequantizeToNewRange from TfLiteAudioStream.h. -/
def TfQuantizer.dequantizeToNewRange (value : ℤ) (scale zero_point new_range : ℚ) : ℚ :=
  TfQuantizer.clip (((value : ℚ) - zero_point) * scale * new_range) new_range

/-- value_scale in generateMicroFeatures. -/
def value_scale : ℤ := 256

/-- value_div in generateMicroFeatures: static_cast of the float
25.6f * 26.0f + 0.5f, which truncates 666.1 to 666. -/
def value_div : ℤ := 666

/-- The per-band feature scaling of generateMicroFeatures
(TfLiteMicroSpeachWriter and TfLiteAudioFeatureProvider are identical
here): ((raw * 256) + (value_div / 2)) / value_div - 128 in int32
arithmetic, followed by the two clamping branches.  raw is one uint16
magnitude produced by the frontend, hence a Nat. -/
def generateFeatureValue (raw : ℕ) : ℤ :=
  let value : ℤ := Int.tdiv ((raw : ℤ) * value_scale + Int.tdiv value_div 2) value_div
  let value := value - 128
  let value := if value < -128 then -128 else value
  let value := if value > 127 then 127 else value
  value

/-- int32_t minimum, the sentinel stored in previous_top_label_time_ by the
recognizer constructor. -/
def int32Min : ℤ := -2147483648

/-- int32_t maximum, used as the infinite time_since_last_top. -/
def int32Max : ℤ := 2147483647

/-- One stored inference result: the recording time and the int8 score
vector (TfLiteResultsQueue::Result / PreviousResultsQueue::Result). -/
structure Result where
  time_ : ℤ
  scores : List ℤ
deriving DecidableEq, Repr

instance : Inhabited Result := ⟨⟨0, []⟩⟩

/-- kMaxResults in TfLiteResultsQueue. -/
def kMaxResults : ℕ := 50

/-- TfLiteResultsQueue: a fixed array of kMaxResults entries plus a front
index and a size, as in the source.  results_ models the backing array
(index i is results_[i]). -/
structure TfLiteResultsQueue where
  results_ : List Result
  front_index_ : ℕ
  size_ : ℕ
deriving DecidableEq, Repr

namespace TfLiteResultsQueue

/-- TfLiteResultsQueue::front. -/
def front (q : TfLiteResultsQueue) : Result :=
  q.results_.getD q.front_index_ default

/-- The back index computed inside TfLiteResultsQueue::back:
front_index_ + (size_ - 1), wrapped once past kMaxResults. -/
def backIndex (q : TfLiteResultsQueue) : ℕ :=
  let back_index := q.front_index_ + (q.size_ - 1)
  if back_index ≥ kMaxResults then back_index - kMaxResults else back_index

/-- TfLiteResultsQueue::push_back: when the queue already holds kMaxResults
entries the new entry is dropped (only an error is logged); otherwise the
size grows by one and the entry is stored at the new back slot. -/
def push_back (q : TfLiteResultsQueue) (entry : Result) : TfLiteResultsQueue :=
  if q.size_ ≥ kMaxResults then q
  else
    let q' : TfLiteResultsQueue := { q with size_ := q.size_ + 1 }
    { q' with results_ := q'.results_.set q'.backIndex entry }

/-- TfLiteResultsQueue::pop_front: returns the front entry and the queue
with the front index advanced (wrapping) and the size decremented.  On an
empty queue the source logs and returns a default Result, leaving the
queue unchanged. -/
def pop_front (q : TfLiteResultsQueue) : Result × TfLiteResultsQueue :=
  if q.size_ = 0 then (default, q)
  else
    let fi := q.front_index_ + 1
    (q.front, { q with front_index_ := if fi ≥ kMaxResults then 0 else fi,
                       size_ := q.size_ - 1 })

/-- TfLiteResultsQueue::from_front: reads the entry offset slots past the
front, wrapping once.  An offset at or past size_ is clamped to size_ - 1
(the source logs an error in that case); a negative offset cannot arise
for a Nat. -/
def from_front (q : TfLiteResultsQueue) (offset : ℕ) : Result :=
  let offset := if offset ≥ q.size_ then q.size_ - 1 else offset
  let index := q.front_index_ + offset
  let index := if index ≥ kMaxResults then index - kMaxResults else index
  q.results_.getD index default

end TfLiteResultsQueue

/-- The empty queue produced by TfLiteResultsQueue at construction /
begin: all slots default, front index 0, size 0. -/
def initQueue : TfLiteResultsQueue :=
  ⟨List.replicate kMaxResults default, 0, 0⟩

/-- The TfLiteConfig fields used by the embedded components, with the
source defaults.  The four recognizer parameters are also the
constructor arguments of RecognizeCommands; kCategoryCount is the
category count captured by begin (setCategories). -/
structure TfLiteConfig where
  sample_rate : ℕ := 16000
  channels : ℕ := 1
  kFeatureSliceSize : ℕ := 40
  kFeatureSliceCount : ℕ := 49
  kFeatureSliceStrideMs : ℕ := 20
  kFeatureSliceDurationMs : ℕ := 30
  kSlicesToProcess : ℕ := 2
  average_window_duration_ms : ℤ := 1000
  detection_threshold : ℕ := 200
  suppression_ms : ℤ := 1500
  minimum_count : ℤ := 3
  kCategoryCount : ℕ := 0
deriving DecidableEq, Repr

/-- Mutable state of TfLiteMicroSpeechRecognizeCommands after a
successful begin: the bounded history queue plus the previous-label
working variables.  previous_top_label_ is a label pointer: none models
the initial string literal silence stored by the constructor (a pointer
distinct from every cfg.labels entry), some i models cfg.labels[i]. -/
structure RecognizeState where
  previous_results_ : TfLiteResultsQueue
  previous_top_label_ : Option ℕ
  previous_top_label_time_ : ℤ
deriving DecidableEq, Repr

/-- Recognizer state right after the constructor and begin: empty queue,
the silence literal, int32 minimum time. -/
def initRecognizeState : RecognizeState :=
  ⟨initQueue, none, int32Min⟩

/-- TfLiteStatus restricted to the two values the recognizer returns. -/
inductive TfLiteStatus where
  | kTfLiteOk
  | kTfLiteError
deriving DecidableEq, Repr

/-- The three out-parameters written by processLatestResults on success. -/
structure ProcessOutput where
  found_command : Option ℕ
  score : ℤ
  is_new_command : Bool
deriving DecidableEq, Repr

/-- The pruning while-loop of processLatestResults, with explicit fuel:
while the queue is nonempty and the front entry is older than time_limit,
pop the front.  Each iteration pops one entry, so size_ iterations of
fuel are exactly enough. -/
def pruneFrontFuel : ℕ → TfLiteResultsQueue → ℤ → TfLiteResultsQueue
  | 0, q, _ => q
  | fuel + 1, q, time_limit =>
    if q.size_ ≠ 0 ∧ q.front.time_ < time_limit then
      pruneFrontFuel fuel (q.pop_front).2 time_limit
    else q

/-- Prune any results that are too old for the averaging window. -/
def pruneFront (q : TfLiteResultsQueue) (time_limit : ℤ) : TfLiteResultsQueue :=
  pruneFrontFuel q.size_ q time_limit

/-- The queue after the push_back of the latest result at the head of
processLatestResults. -/
def queueAfterPush (st : RecognizeState) (latest : List ℤ) (current_time_ms : ℤ) :
    TfLiteResultsQueue :=
  st.previous_results_.push_back ⟨current_time_ms, latest⟩

/-- The queue after push_back and pruning, i.e. the surviving averaging
window of processLatestResults. -/
def queueAfterPrune (cfg : TfLiteConfig) (st : RecognizeState) (latest : List ℤ)
    (current_time_ms : ℤ) : TfLiteResultsQueue :=
  pruneFront (queueAfterPush st latest current_time_ms)
    (current_time_ms - cfg.average_window_duration_ms)

/-- Sum over the surviving window of scores[i] + 128, accumulated in
increasing offset order exactly as the offset-major loop of the source
does for each fixed category i. -/
def sumScore (q : TfLiteResultsQueue) (i : ℕ) : ℤ :=
  (List.range q.size_).foldl
    (fun acc offset => acc + ((q.from_front offset).scores.getD i 0 + 128)) 0

/-- average_scores: per category, the biased sum divided (int32 division)
by how_many_results. -/
def averageScores (catCount : ℕ) (q : TfLiteResultsQueue) : List ℤ :=
  (List.range catCount).map fun i => Int.tdiv (sumScore q i) (q.size_ : ℤ)

/-- The argmax loop of processLatestResults: current_top_index starts at
0 and current_top_score at 0, and only a strictly greater average score
updates them, so the first index attaining the maximum wins ties. -/
def topCategory (scores : List ℤ) : ℕ × ℤ :=
  (List.range scores.length).foldl
    (fun acc i => if scores.getD i 0 > acc.2 then (i, scores.getD i 0) else acc)
    (0, 0)

/-- time_since_last_top: int32 max (practically infinity) when the
previous label is the reserved background label cfg.labels[0] or no
recognition has happened yet, otherwise the elapsed time. -/
def timeSinceLastTop (st : RecognizeState) (current_time_ms : ℤ) : ℤ :=
  if st.previous_top_label_ = some 0 ∨ st.previous_top_label_time_ = int32Min
  then int32Max
  else current_time_ms - st.previous_top_label_time_

/-- The bail-out condition of processLatestResults after pruning: too few
surviving results, or a window span below a quarter of the averaging
window (int32 division by 4). -/
def windowFails (cfg : TfLiteConfig) (q : TfLiteResultsQueue) (current_time_ms : ℤ) : Prop :=
  (q.size_ : ℤ) < cfg.minimum_count ∨
    current_time_ms - q.front.time_ < Int.tdiv cfg.average_window_duration_ms 4

instance (cfg : TfLiteConfig) (q : TfLiteResultsQueue) (t : ℤ) :
    Decidable (windowFails cfg q t) :=
  inferInstanceAs (Decidable ((q.size_ : ℤ) < cfg.minimum_count ∨
    t - q.front.time_ < Int.tdiv cfg.average_window_duration_ms 4))

/-- The decision condition of processLatestResults: the top average score
strictly above the detection threshold, and the top label a different
pointer than the previous label or the suppression interval elapsed. -/
def newCommandCond (cfg : TfLiteConfig) (st : RecognizeState) (current_time_ms : ℤ)
    (current_top_index : ℕ) (current_top_score : ℤ) : Prop :=
  current_top_score > (cfg.detection_threshold : ℤ) ∧
    (¬ some current_top_index = st.previous_top_label_ ∨
      timeSinceLastTop st current_time_ms > cfg.suppression_ms)

instance (cfg : TfLiteConfig) (st : RecognizeState) (t : ℤ) (i : ℕ) (sc : ℤ) :
    Decidable (newCommandCond cfg st t i sc) :=
  inferInstanceAs (Decidable (sc > (cfg.detection_threshold : ℤ) ∧
    (¬ some i = st.previous_top_label_ ∨ timeSinceLastTop st t > cfg.suppression_ms)))

/-- The pair (current_top_index, current_top_score) computed by
processLatestResults from the surviving window. -/
def currentTop (cfg : TfLiteConfig) (st : RecognizeState) (latest : List ℤ)
    (current_time_ms : ℤ) : ℕ × ℤ :=
  topCategory (averageScores cfg.kCategoryCount
    (queueAfterPrune cfg st latest current_time_ms))

/-- TfLiteMicroSpeechRecognizeCommands::processLatestResults
(identical to RecognizeCommands::ProcessLatestResults), on a recognizer
that has been started.  The latest_results tensor is modelled by its
flat int8 contents; the dims check compares its length against the
category count (the int8 dtype is carried by the model).  On an error
the out-parameters are untouched (none) and the state is returned
unchanged.  The uint8 conversion of the int32 top score keeps the value
modulo 256. -/
def processLatestResults (cfg : TfLiteConfig) (st : RecognizeState)
    (latest : List ℤ) (current_time_ms : ℤ) :
    TfLiteStatus × RecognizeState × Option ProcessOutput :=
  if ¬ latest.length = cfg.kCategoryCount then
    (.kTfLiteError, st, none)
  else if st.previous_results_.size_ ≠ 0 ∧
      current_time_ms < st.previous_results_.front.time_ then
    (.kTfLiteError, st, none)
  else if windowFails cfg (queueAfterPrune cfg st latest current_time_ms) current_time_ms then
    (.kTfLiteOk,
      { st with previous_results_ := queueAfterPrune cfg st latest current_time_ms },
      some ⟨st.previous_top_label_, 0, false⟩)
  else if newCommandCond cfg st current_time_ms
      (currentTop cfg st latest current_time_ms).1
      (currentTop cfg st latest current_time_ms).2 then
    (.kTfLiteOk,
      ⟨queueAfterPrune cfg st latest current_time_ms,
        some (currentTop cfg st latest current_time_ms).1, current_time_ms⟩,
      some ⟨some (currentTop cfg st latest current_time_ms).1,
        Int.emod (currentTop cfg st latest current_time_ms).2 256, true⟩)
  else
    (.kTfLiteOk,
      { st with previous_results_ := queueAfterPrune cfg st latest current_time_ms },
      some ⟨some (currentTop cfg st latest current_time_ms).1,
        Int.emod (currentTop cfg st latest current_time_ms).2 256, false⟩)

/-- Modelled from the spec: audio_tools RingBuffer of int16 samples
(AudioTools/Buffers.h is not among the sources; only its callers are).
Spec section 4.1 SampleRing: a bounded FIFO where write appends one
sample only while free space remains, readArray drains up to maxCount
samples in FIFO order returning the actual count, and writeArray
re-injects samples.  data holds the live contents front first. -/
structure RingBuffer where
  capacity : ℕ
  data : List ℤ
deriving DecidableEq, Repr

namespace RingBuffer

/-- Modelled from the spec: free space of the ring. -/
def availableForWrite (b : RingBuffer) : ℕ :=
  b.capacity - b.data.length

/-- Modelled from the spec: append one sample if space remains,
otherwise reject the write. -/
def write (b : RingBuffer) (x : ℤ) : RingBuffer :=
  if 0 < b.availableForWrite then { b with data := b.data ++ [x] } else b

/-- Modelled from the spec: drain up to maxCount samples FIFO; the first
component is the drained prefix (its length is the returned count). -/
def readArray (b : RingBuffer) (maxCount : ℕ) : List ℤ × RingBuffer :=
  (b.data.take maxCount, { b with data := b.data.drop maxCount })

/-- Modelled from the spec: re-inject a block of samples, bounded by the
free space. -/
def writeArray (b : RingBuffer) (xs : List ℤ) : RingBuffer :=
  { b with data := b.data ++ xs.take b.availableForWrite }

end RingBuffer

/-- Derived sample counts of TfLiteConfig used by the writer: the audio
window of one slice and the stride, in samples. -/
def TfLiteConfig.audioSampleSize (cfg : TfLiteConfig) : ℕ :=
  cfg.kFeatureSliceDurationMs * (cfg.sample_rate / 1000)

/-- Stride in samples. -/
def TfLiteConfig.strideSampleSize (cfg : TfLiteConfig) : ℕ :=
  cfg.kFeatureSliceStrideMs * (cfg.sample_rate / 1000)

/-- The buffers owned by TfLiteMicroSpeachWriter that addSlice touches:
the feature matrix p_feature_data (kFeatureSliceCount * kFeatureSliceSize
int8 entries), the persistent scratch p_audio_samples, and the sample
ring p_buffer. -/
structure SpeachWriterState where
  p_feature_data : List ℤ
  p_audio_samples : List ℤ
  p_buffer : RingBuffer
deriving DecidableEq, Repr

/-- TfLiteMicroSpeachWriter::addSlice (the identical logic appears in
TfLiteAudioFeatureProvider::addSlice).  The external spectral frontend
(FrontendProcessSamples) is abstracted as a function from the processed
samples to the list of uint16 magnitudes.  Steps, as in the source:
memmove shifts the matrix left by one slice width, leaving the old last
slice in place; readArray drains up to audioSampleSize samples into the
scratch buffer (a short read is logged but processing continues);
writeArray re-injects the keepSampleSize samples starting at the stride
offset of the scratch buffer; generateMicroFeatures runs the frontend on
the drained samples and writes each scaled magnitude into the last slice
region. -/
def addSlice (cfg : TfLiteConfig) (frontend : List ℤ → List ℕ)
    (st : SpeachWriterState) : SpeachWriterState :=
  let sliceSize := cfg.kFeatureSliceSize
  let shiftedLen := (cfg.kFeatureSliceCount - 1) * sliceSize
  let featureShifted :=
    st.p_feature_data.drop sliceSize ++ st.p_feature_data.drop shiftedLen
  let rd := st.p_buffer.readArray cfg.audioSampleSize
  let audio_samples := rd.1 ++ st.p_audio_samples.drop rd.1.length
  let kKeepSampleSize := cfg.audioSampleSize - cfg.strideSampleSize
  let buf2 := rd.2.writeArray
    ((audio_samples.drop cfg.strideSampleSize).take kKeepSampleSize)
  let frontend_output := frontend (audio_samples.take rd.1.length)
  let new_slice := frontend_output.map generateFeatureValue ++
    (featureShifted.drop shiftedLen).drop frontend_output.length
  { p_feature_data := featureShifted.take shiftedLen ++ new_slice,
    p_audio_samples := audio_samples,
    p_buffer := buf2 }

/-- The per-sample channel state of TfLiteMicroSpeachWriter: the channel
flag and last_value used by the stereo branch of write1, plus the ring. -/
structure Write1State where
  channel : ℤ
  last_value : ℤ
  p_buffer : RingBuffer
deriving DecidableEq, Repr

/-- The stereo (channels == 2) branch of TfLiteMicroSpeachWriter::write1,
transcribed statement by statement.  The inner if stores the sample and
sets channel to 1, the braceless else writes (sample / 2) +
(last_value / 2); the trailing assignment channel = 0 is outside the
else and therefore runs after every sample. -/
def write1Stereo (st : Write1State) (sample : ℤ) : Write1State :=
  let st :=
    if st.channel = 0 then
      { st with last_value := sample, channel := 1 }
    else
      { st with p_buffer :=
          st.p_buffer.write (Int.tdiv sample 2 + Int.tdiv st.last_value 2) }
  { st with channel := 0 }

/-- The stereo downmix loop of TfLiteAudioFeatureProvider::write: the
index advances by kAudioChannels = 2 and each iteration writes
audio_16[j] / 2 + audio_16[j + 1] / 2, so consecutive sample pairs map
to single mono samples.  This lists the written mono samples for a run
in which the ring never fills (no slice is triggered). -/
def featureProviderDownmix : List ℤ → List ℤ
  | a :: b :: rest => (Int.tdiv a 2 + Int.tdiv b 2) :: featureProviderDownmix rest
  | _ => []

/-- The quantize function as the specification words it (claim C6):
round of value / scale plus the zero point, saturated to the int8 range,
with the same degenerate passthrough.  The zero point is integral here
since the spec adds it after rounding.  This definition exists only to
be compared against TfQuantizer.quantize. -/
def quantizeSpec (value scale : ℚ) (zero_point : ℤ) : ℤ :=
  if scale = 0 ∧ zero_point = 0 then fTrunc value
  else max (-128) (min 127 (round (value / scale) + zero_point))

/- ---------------------------------------------------------------- -/
/- Helper lemmas                                                     -/
/- ---------------------------------------------------------------- -/

/-- Truncation toward zero moves a rational by strictly less than one. -/
lemma abs_fTrunc_sub_lt_one (q : ℚ) : |(fTrunc q : ℚ) - q| < 1 := by
  unfold fTrunc
  split
  · next h =>
    rw [abs_lt]
    constructor <;> linarith [Int.floor_le q, Int.sub_one_lt_floor q]
  · next h =>
    rw [abs_lt]
    constructor <;> linarith [Int.le_ceil q, Int.ceil_lt_add_one q]

/-- Truncation toward zero never increases the absolute value. -/
lemma abs_fTrunc_le (q : ℚ) : |(fTrunc q : ℚ)| ≤ |q| := by
  unfold fTrunc
  split
  · next h =>
    have h0 : (0 : ℚ) ≤ (⌊q⌋ : ℚ) := by
      exact_mod_cast Int.floor_nonneg.mpr h
    rw [abs_of_nonneg h0, abs_of_nonneg h]
    exact Int.floor_le q
  · next h =>
    have hq : q ≤ 0 := le_of_not_le h
    have h0 : (⌈q⌉ : ℚ) ≤ 0 := by
      exact_mod_cast Int.ceil_le.mpr (by exact_mod_cast hq)
    rw [abs_of_nonpos h0, abs_of_nonpos hq]
    simp only [neg_le_neg_iff]
    exact Int.le_ceil q

/- ---------------------------------------------------------------- -/
/- Claims                                                            -/
/- ---------------------------------------------------------------- -/

/-- Claim C5: for every float x (modelled as an exact rational) and every
scale > 0 with zero point zp, whenever the quantized value fits the int8
range, the round trip satisfies
|dequantize (quantize x scale zp) scale zp - x| <= scale: at most one
quantization step of error. -/
theorem quantize_dequantize_roundtrip (x scale zero_point : ℚ)
    (hscale : 0 < scale)
    (hlo : -128 ≤ TfQuantizer.quantize x scale zero_point)
    (hhi : TfQuantizer.quantize x scale zero_point ≤ 127) :
    |TfQuantizer.dequantize (TfQuantizer.quantize x scale zero_point) scale zero_point - x|
      ≤ scale := by
  have hne : ¬ (scale = 0 ∧ zero_point = 0) := fun h => absurd h.1 (ne_of_gt hscale)
  unfold TfQuantizer.dequantize TfQuantizer.quantize
  rw [if_neg hne, if_neg hne]
  have hsne : scale ≠ 0 := ne_of_gt hscale
  have hx : (x / scale + zero_point - zero_point) * scale = x := by
    rw [add_sub_cancel_right]
    exact div_mul_cancel₀ x hsne
  set t := x / scale + zero_point with ht
  have hdiff : ((fTrunc t : ℚ) - zero_point) * scale - x = ((fTrunc t : ℚ) - t) * scale := by
    rw [← hx]; ring
  calc |((fTrunc t : ℚ) - zero_point) * scale - x|
      = |((fTrunc t : ℚ) - t) * scale| := by
        rw [hdiff]
    _ = |(fTrunc t : ℚ) - t| * scale := by
        rw [abs_mul, abs_of_pos hscale]
    _ ≤ 1 * scale :=
        mul_le_mul_of_nonneg_right (le_of_lt (abs_fTrunc_sub_lt_one t)) (le_of_lt hscale)
    _ = scale := one_mul scale

/-- Witness for C5 at x = 3, scale = 2, zero point = 0: the quantized
value 1 is in range and the round-trip error 1 is at most the scale 2. -/
theorem quantize_dequantize_roundtrip_witness :
    (0 : ℚ) < 2 ∧ (-128 ≤ TfQuantizer.quantize 3 2 0 ∧ TfQuantizer.quantize 3 2 0 ≤ 127) ∧
    |TfQuantizer.dequantize (TfQuantizer.quantize 3 2 0) 2 0 - 3| ≤ 2 := by
  have hq : TfQuantizer.quantize 3 2 0 = 1 := by
    unfold TfQuantizer.quantize fTrunc
    rw [if_neg (by norm_num), if_pos (by norm_num)]
    rw [Int.floor_eq_iff]
    norm_num
  refine ⟨by norm_num, ⟨by rw [hq]; norm_num, by rw [hq]; norm_num⟩, ?_⟩
  exact quantize_dequantize_roundtrip 3 2 0 (by norm_num)
    (by rw [hq]; norm_num) (by rw [hq]; norm_num)

/-- Claim C6 counterexample: at value 3, scale 2, zero point 0 (all
exactly representable as floats, with exact division), the source
truncates 3 / 2 = 1.5 down to 1 while the claim requires
round(3 / 2) + 0 = 2. -/
theorem quantize_not_rounding_counterexample :
    TfQuantizer.quantize 3 2 0 = 1 ∧ quantizeSpec 3 2 0 = 2 ∧ (1 : ℤ) ≠ 2 := by
  refine ⟨?_, ?_, by norm_num⟩
  · unfold TfQuantizer.quantize fTrunc
    rw [if_neg (by norm_num), if_pos (by norm_num)]
    rw [Int.floor_eq_iff]
    norm_num
  · unfold quantizeSpec
    rw [if_neg (by norm_num)]
    have hr : round ((3 : ℚ) / 2) = 2 := by
      rw [round_eq, Int.floor_eq_iff]
      norm_num
    rw [hr]
    norm_num

/-- Claim C6 amended: for scale or zero point nonzero, quantize returns
the truncation toward zero of value / scale + zero_point (not the
rounding): the result differs from value / scale + zero_point by
strictly less than one and its absolute value never exceeds that of
value / scale + zero_point, which characterizes truncation toward
zero among integers.  No saturation is applied by the source. -/
theorem quantize_truncates (value scale zero_point : ℚ)
    (h : ¬ (scale = 0 ∧ zero_point = 0)) :
    |((TfQuantizer.quantize value scale zero_point : ℤ) : ℚ) - (value / scale + zero_point)| < 1 ∧
    |((TfQuantizer.quantize value scale zero_point : ℤ) : ℚ)| ≤ |value / scale + zero_point| := by
  unfold TfQuantizer.quantize
  rw [if_neg h]
  exact ⟨abs_fTrunc_sub_lt_one _, abs_fTrunc_le _⟩

/-- Witness for the amended C6 at value 3, scale 2, zero point 0. -/
theorem quantize_truncates_witness :
    ¬ ((2 : ℚ) = 0 ∧ (0 : ℚ) = 0) ∧
    (|((TfQuantizer.quantize 3 2 0 : ℤ) : ℚ) - ((3 : ℚ) / 2 + 0)| < 1 ∧
     |((TfQuantizer.quantize 3 2 0 : ℤ) : ℚ)| ≤ |(3 : ℚ) / 2 + 0|) :=
  ⟨by norm_num, quantize_truncates 3 2 0 (by norm_num)⟩

/-- Claim C7, evaluated at the failing input value = -200, range = 100:
the negative branch of clip compares -value < -range, which is false for
every negative value once range is non-negative, so the value is
returned unclipped: clip (-200) 100 = -200, strictly below -range,
contradicting the claimed containment in [-range, range].  The sibling
dequantizeToNewRange comment and the spec make the clipping intent
clear, so this is a slip in the code. -/
theorem clip_negative_failing_input :
    TfQuantizer.clip (-200) 100 = -200 ∧ TfQuantizer.clip (-200) 100 < -100 := by
  have h : TfQuantizer.clip (-200) 100 = -200 := by
    unfold TfQuantizer.clip
    rw [if_neg (by norm_num), if_neg (by norm_num)]
  exact ⟨h, by rw [h]; norm_num⟩

/-- Claim C8: the per-band feature scaling of generateMicroFeatures is
exactly ((raw * 256) + (value_div / 2)) / value_div - 128 in truncating
integer arithmetic with value_div = round(25.6 * 26.0) = 666, clipped to
[-128, 127], for every uint16 frontend magnitude raw. -/
theorem generateMicroFeatures_scaling :
    value_div = round ((25.6 : ℚ) * 26.0) ∧ value_div = 666 ∧
    ∀ raw : ℕ, raw ≤ 65535 →
      generateFeatureValue raw =
        max (-128) (min 127
          (Int.tdiv ((raw : ℤ) * 256 + Int.tdiv value_div 2) value_div - 128)) ∧
      -128 ≤ generateFeatureValue raw ∧ generateFeatureValue raw ≤ 127 := by
  refine ⟨?_, rfl, ?_⟩
  · have hfl : ⌊(6661 : ℚ) / 10⌋ = 666 := by
      rw [Int.floor_eq_iff]
      norm_num
    rw [round_eq, show (25.6 : ℚ) * 26.0 + 1 / 2 = 6661 / 10 by norm_num, hfl]
    rfl
  · intro raw _
    unfold generateFeatureValue value_scale value_div
    rw [show Int.tdiv 666 2 = 333 from by decide]
    set q : ℤ := Int.tdiv ((raw : ℤ) * 256 + 333) 666 with hqdef
    have hq : 0 ≤ q := by
      rw [hqdef]
      exact Int.tdiv_nonneg (by positivity) (by norm_num)
    dsimp only
    split_ifs <;> constructor <;> omega

/-- Witness for C8 at raw = 500: a concrete uint16 magnitude. -/
theorem generateMicroFeatures_scaling_witness :
    (500 : ℕ) ≤ 65535 ∧
    (generateFeatureValue 500 =
        max (-128) (min 127
          (Int.tdiv ((500 : ℤ) * 256 + Int.tdiv value_div 2) value_div - 128)) ∧
      -128 ≤ generateFeatureValue 500 ∧ generateFeatureValue 500 ≤ 127) :=
  ⟨by norm_num, generateMicroFeatures_scaling.2.2 500 (by norm_num)⟩

/-- Claim C9, evaluated at the failing input: feeding the two-channel
stream [100, 300, -50, 50] sample by sample through the stereo branch of
TfLiteMicroSpeachWriter::write1 writes nothing at all into the sample
ring, because the unconditional trailing channel = 0 assignment makes
the stereo write branch unreachable; the claimed mono samples [200, 0]
are exactly what the parallel loop in TfLiteAudioFeatureProvider::write
produces, which shows the intent: the write1 transcription is a slip. -/
theorem write1_stereo_failing_input :
    (([100, 300, -50, 50] : List ℤ).foldl write1Stereo ⟨0, 0, ⟨480, []⟩⟩).p_buffer.data
      = ([] : List ℤ) ∧
    featureProviderDownmix [100, 300, -50, 50] = [200, 0] := by
  exact ⟨rfl, rfl⟩

/-- Claim C10: push_back on a queue already holding kMaxResults entries
returns the queue completely unchanged (same backing array, same front
index, same size), and push_back never grows the size past
kMaxResults. -/
theorem push_back_full_discards :
    (∀ (q : TfLiteResultsQueue) (entry : Result), q.size_ = kMaxResults →
       q.push_back entry = q) ∧
    (∀ (q : TfLiteResultsQueue) (entry : Result), q.size_ ≤ kMaxResults →
       (q.push_back entry).size_ ≤ kMaxResults) := by
  constructor
  · intro q entry h
    unfold TfLiteResultsQueue.push_back
    rw [if_pos (le_of_eq h.symm)]
  · intro q entry h
    unfold TfLiteResultsQueue.push_back
    split
    · exact h
    · next hlt =>
      simp only [not_le] at hlt
      simpa using hlt

/-- Witness for C10: a concrete queue of size kMaxResults is unchanged
by push_back. -/
theorem push_back_full_discards_witness :
    (⟨List.replicate kMaxResults default, 0, 50⟩ : TfLiteResultsQueue).size_ = kMaxResults ∧
    (⟨List.replicate kMaxResults default, 0, 50⟩ : TfLiteResultsQueue).push_back ⟨7, [1]⟩ =
      ⟨List.replicate kMaxResults default, 0, 50⟩ :=
  ⟨rfl, push_back_full_discards.1 _ _ rfl⟩

/- ---------------------------------------------------------------- -/
/- Concrete runs used by the recognizer claims                       -/
/- ---------------------------------------------------------------- -/

/-- A two-category configuration for the debounce scenario: threshold
100, suppression 500 ms, minimum count 2, averaging window 1000 ms. -/
def cfgDebounce : TfLiteConfig :=
  { detection_threshold := 100, suppression_ms := 500, minimum_count := 2,
    kCategoryCount := 2 }

/-- A score vector whose category 1 averages to 255 after the +128
bias, far above the threshold. -/
def debounceScores : List ℤ := [-128, 127]

/-- Debounce run, first call at t = 0 ms. -/
def debounceCall1 : TfLiteStatus × RecognizeState × Option ProcessOutput :=
  processLatestResults cfgDebounce initRecognizeState debounceScores 0

/-- Debounce run, second call at t = 300 ms (first call with a full
window). -/
def debounceCall2 : TfLiteStatus × RecognizeState × Option ProcessOutput :=
  processLatestResults cfgDebounce debounceCall1.2.1 debounceScores 300

/-- Debounce run, third call at t = 400 ms, 100 ms after the
recognition at 300 ms and therefore inside the suppression interval. -/
def debounceCall3 : TfLiteStatus × RecognizeState × Option ProcessOutput :=
  processLatestResults cfgDebounce debounceCall2.2.1 debounceScores 400

/-- A one-category configuration for the timestamp-regression run. -/
def cfgOutOfOrder : TfLiteConfig := { kCategoryCount := 1 }

/-- Out-of-order run, first call at t = 100 ms. -/
def outOfOrderCall1 : TfLiteStatus × RecognizeState × Option ProcessOutput :=
  processLatestResults cfgOutOfOrder initRecognizeState [0] 100

/-- Out-of-order run, second call at t = 200 ms. -/
def outOfOrderCall2 : TfLiteStatus × RecognizeState × Option ProcessOutput :=
  processLatestResults cfgOutOfOrder outOfOrderCall1.2.1 [0] 200

/-- Out-of-order run, third call at t = 150 ms: older than the most
recent stored entry (200 ms) but newer than the oldest one (100 ms). -/
def outOfOrderCall3 : TfLiteStatus × RecognizeState × Option ProcessOutput :=
  processLatestResults cfgOutOfOrder outOfOrderCall2.2.1 [0] 150

/-- The configuration of Scenario A: the source defaults
(window 1000 ms, minimum count 3) with two categories. -/
def cfgScenarioA : TfLiteConfig := { kCategoryCount := 2 }

/-- Scenario A, first call at t = 100 ms. -/
def scenarioACall1 : TfLiteStatus × RecognizeState × Option ProcessOutput :=
  processLatestResults cfgScenarioA initRecognizeState [0, 0] 100

/-- Scenario A, second call 10 ms later. -/
def scenarioACall2 : TfLiteStatus × RecognizeState × Option ProcessOutput :=
  processLatestResults cfgScenarioA scenarioACall1.2.1 [0, 0] 110

/-- Claim C2 counterexample: with history timestamps [100, 200], the
call at t = 150 is older than the most recent stored entry (200), yet
processLatestResults succeeds and mutates the history (size 2 to 3),
because the source compares the new timestamp only against the front
(oldest) entry of the queue. -/
theorem processLatestResults_out_of_order_counterexample :
    outOfOrderCall2.2.1.previous_results_.size_ = 2 ∧
    (outOfOrderCall2.2.1.previous_results_.from_front 1).time_ = 200 ∧
    (150 : ℤ) < 200 ∧
    outOfOrderCall3.1 = TfLiteStatus.kTfLiteOk ∧
    outOfOrderCall3.2.1.previous_results_.size_ = 3 := by
  refine ⟨rfl, rfl, by norm_num, rfl, rfl⟩

/-- Claim C2 amended: the rejected regression is one behind the oldest
entry: whenever the history is nonempty and current_time_ms is strictly
smaller than the timestamp of the front (oldest) entry, the call fails
with an error and the whole state (history queue and previous-label
fields) is returned exactly as it was. -/
theorem processLatestResults_out_of_order_front (cfg : TfLiteConfig)
    (st : RecognizeState) (latest : List ℤ) (t : ℤ)
    (hlen : latest.length = cfg.kCategoryCount)
    (hne : st.previous_results_.size_ ≠ 0)
    (hlt : t < st.previous_results_.front.time_) :
    processLatestResults cfg st latest t = (.kTfLiteError, st, none) := by
  unfold processLatestResults
  rw [if_neg (not_not_intro hlen), if_pos ⟨hne, hlt⟩]

/-- Witness for the amended C2: a call at t = 50 on the state whose
oldest entry is at 100 ms is rejected with the state untouched. -/
theorem processLatestResults_out_of_order_front_witness :
    ([0] : List ℤ).length = cfgOutOfOrder.kCategoryCount ∧
    outOfOrderCall2.2.1.previous_results_.size_ ≠ 0 ∧
    (50 : ℤ) < outOfOrderCall2.2.1.previous_results_.front.time_ ∧
    processLatestResults cfgOutOfOrder outOfOrderCall2.2.1 [0] 50 =
      (.kTfLiteError, outOfOrderCall2.2.1, none) :=
  ⟨rfl, by decide, by decide,
    processLatestResults_out_of_order_front cfgOutOfOrder outOfOrderCall2.2.1 [0] 50
      rfl (by decide) (by decide)⟩

/-- Claim C3: whenever the surviving window after push and prune holds
fewer than minimum_count entries or spans less than a quarter of the
averaging window, processLatestResults returns ok with the previous
label, score 0 and is_new_command false, leaving previous_top_label_
and previous_top_label_time_ unchanged (only the history queue has
absorbed the new result); and, Scenario A, with the default window of
1000 ms and minimum count 3, two results 10 ms apart both yield
score 0 and is_new_command false. -/
theorem processLatestResults_insufficient_window :
    (∀ (cfg : TfLiteConfig) (st : RecognizeState) (latest : List ℤ) (t : ℤ),
      latest.length = cfg.kCategoryCount →
      ¬ (st.previous_results_.size_ ≠ 0 ∧ t < st.previous_results_.front.time_) →
      windowFails cfg (queueAfterPrune cfg st latest t) t →
      processLatestResults cfg st latest t =
        (.kTfLiteOk, { st with previous_results_ := queueAfterPrune cfg st latest t },
          some ⟨st.previous_top_label_, 0, false⟩)) ∧
    scenarioACall1.1 = TfLiteStatus.kTfLiteOk ∧
    scenarioACall1.2.2 = some ⟨none, 0, false⟩ ∧
    scenarioACall2.1 = TfLiteStatus.kTfLiteOk ∧
    scenarioACall2.2.2 = some ⟨none, 0, false⟩ ∧
    scenarioACall2.2.1.previous_top_label_ = none ∧
    scenarioACall2.2.1.previous_top_label_time_ = int32Min := by
  refine ⟨?_, rfl, rfl, rfl, rfl, rfl, rfl⟩
  intro cfg st latest t hlen horder hwin
  unfold processLatestResults
  rw [if_neg (not_not_intro hlen), if_neg horder, if_pos hwin]

/-- Witness for C3 at the Scenario A inputs: the second call at t = 110
has only two surviving results, below the minimum count of 3. -/
theorem processLatestResults_insufficient_window_witness :
    ([0, 0] : List ℤ).length = cfgScenarioA.kCategoryCount ∧
    ¬ (scenarioACall1.2.1.previous_results_.size_ ≠ 0 ∧
        (110 : ℤ) < scenarioACall1.2.1.previous_results_.front.time_) ∧
    windowFails cfgScenarioA (queueAfterPrune cfgScenarioA scenarioACall1.2.1 [0, 0] 110) 110 ∧
    processLatestResults cfgScenarioA scenarioACall1.2.1 [0, 0] 110 =
      (.kTfLiteOk,
        { scenarioACall1.2.1 with
            previous_results_ := queueAfterPrune cfgScenarioA scenarioACall1.2.1 [0, 0] 110 },
        some ⟨scenarioACall1.2.1.previous_top_label_, 0, false⟩) :=
  ⟨rfl, by decide, by decide,
    processLatestResults_insufficient_window.1 cfgScenarioA scenarioACall1.2.1 [0, 0] 110
      rfl (by decide) (by decide)⟩

/-- Claim C1: for every call that passes the shape, ordering and
window checks, is_new_command is true and previous_top_label_ /
previous_top_label_time_ are updated to the current top and time
exactly when the top average score strictly exceeds
detection_threshold and (the top label differs from the previous label
or time_since_last_top, the spec-defined elapsed time that is int32 max
when no prior recognition exists or the prior label is the background
category, strictly exceeds suppression_ms); otherwise is_new_command
is false and the previous-label state is unchanged.  In particular, in
the debounce run the same category clears the threshold at 300 ms and
again at 400 ms, 100 ms later and so inside the 500 ms suppression
interval, and is_new_command is true only at 300 ms. -/
theorem processLatestResults_debounce :
    (∀ (cfg : TfLiteConfig) (st : RecognizeState) (latest : List ℤ) (t : ℤ),
      latest.length = cfg.kCategoryCount →
      ¬ (st.previous_results_.size_ ≠ 0 ∧ t < st.previous_results_.front.time_) →
      ¬ windowFails cfg (queueAfterPrune cfg st latest t) t →
      (((currentTop cfg st latest t).2 > (cfg.detection_threshold : ℤ) ∧
          (¬ some (currentTop cfg st latest t).1 = st.previous_top_label_ ∨
            timeSinceLastTop st t > cfg.suppression_ms)) →
        processLatestResults cfg st latest t =
          (.kTfLiteOk,
            ⟨queueAfterPrune cfg st latest t, some (currentTop cfg st latest t).1, t⟩,
            some ⟨some (currentTop cfg st latest t).1,
              Int.emod (currentTop cfg st latest t).2 256, true⟩)) ∧
      (¬ ((currentTop cfg st latest t).2 > (cfg.detection_threshold : ℤ) ∧
          (¬ some (currentTop cfg st latest t).1 = st.previous_top_label_ ∨
            timeSinceLastTop st t > cfg.suppression_ms)) →
        processLatestResults cfg st latest t =
          (.kTfLiteOk,
            { st with previous_results_ := queueAfterPrune cfg st latest t },
            some ⟨some (currentTop cfg st latest t).1,
              Int.emod (currentTop cfg st latest t).2 256, false⟩))) ∧
    (currentTop cfgDebounce debounceCall1.2.1 debounceScores 300).2 >
      (cfgDebounce.detection_threshold : ℤ) ∧
    (currentTop cfgDebounce debounceCall2.2.1 debounceScores 400).2 >
      (cfgDebounce.detection_threshold : ℤ) ∧
    (currentTop cfgDebounce debounceCall1.2.1 debounceScores 300).1 =
      (currentTop cfgDebounce debounceCall2.2.1 debounceScores 400).1 ∧
    (400 : ℤ) - 300 ≤ cfgDebounce.suppression_ms ∧
    (debounceCall2.2.2.map fun o => o.is_new_command) = some true ∧
    (debounceCall3.2.2.map fun o => o.is_new_command) = some false := by
  refine ⟨?_, by decide, by decide, by decide, by decide, by decide, by decide⟩
  intro cfg st latest t hlen horder hwin
  constructor
  · intro hc
    unfold processLatestResults
    rw [if_neg (not_not_intro hlen), if_neg horder, if_neg hwin,
      if_pos (show newCommandCond cfg st t (currentTop cfg st latest t).1
        (currentTop cfg st latest t).2 from hc)]
  · intro hc
    unfold processLatestResults
    rw [if_neg (not_not_intro hlen), if_neg horder, if_neg hwin,
      if_neg (show ¬ newCommandCond cfg st t (currentTop cfg st latest t).1
        (currentTop cfg st latest t).2 from hc)]

/-- Witness for C1 at the debounce inputs of the 300 ms call: all four
hypotheses hold and the call emits a new command. -/
theorem processLatestResults_debounce_witness :
    debounceScores.length = cfgDebounce.kCategoryCount ∧
    ¬ (debounceCall1.2.1.previous_results_.size_ ≠ 0 ∧
        (300 : ℤ) < debounceCall1.2.1.previous_results_.front.time_) ∧
    ¬ windowFails cfgDebounce
        (queueAfterPrune cfgDebounce debounceCall1.2.1 debounceScores 300) 300 ∧
    ((currentTop cfgDebounce debounceCall1.2.1 debounceScores 300).2 >
        (cfgDebounce.detection_threshold : ℤ) ∧
      (¬ some (currentTop cfgDebounce debounceCall1.2.1 debounceScores 300).1 =
          debounceCall1.2.1.previous_top_label_ ∨
        timeSinceLastTop debounceCall1.2.1 300 > cfgDebounce.suppression_ms)) ∧
    processLatestResults cfgDebounce debounceCall1.2.1 debounceScores 300 =
      (.kTfLiteOk,
        ⟨queueAfterPrune cfgDebounce debounceCall1.2.1 debounceScores 300,
          some (currentTop cfgDebounce debounceCall1.2.1 debounceScores 300).1, 300⟩,
        some ⟨some (currentTop cfgDebounce debounceCall1.2.1 debounceScores 300).1,
          Int.emod (currentTop cfgDebounce debounceCall1.2.1 debounceScores 300).2 256,
          true⟩) :=
  ⟨rfl, by decide, by decide, by decide,
    (processLatestResults_debounce.1 cfgDebounce debounceCall1.2.1 debounceScores 300
      rfl (by decide) (by decide)).1 (by decide)⟩

/-- Claim C4: one addSlice call shifts the feature matrix left by one
slice and appends the freshly generated slice.  The hypotheses are the
writer invariants: the matrix holds kFeatureSliceCount * kFeatureSliceSize
entries, there is at least one slice, and the frontend produces
kFeatureSliceSize magnitudes from the drained audio (its contract).  The
first kFeatureSliceCount - 1 slices of the new matrix are exactly the
last kFeatureSliceCount - 1 slices of the old one, and the last slice is
the scaled frontend output of the audio just drained from the ring. -/
theorem addSlice_shift_and_append (cfg : TfLiteConfig) (frontend : List ℤ → List ℕ)
    (st : SpeachWriterState)
    (hfd : st.p_feature_data.length = cfg.kFeatureSliceCount * cfg.kFeatureSliceSize)
    (hcnt : 1 ≤ cfg.kFeatureSliceCount)
    (hfe : (frontend (st.p_buffer.data.take cfg.audioSampleSize)).length
      = cfg.kFeatureSliceSize) :
    (addSlice cfg frontend st).p_feature_data.take
        ((cfg.kFeatureSliceCount - 1) * cfg.kFeatureSliceSize)
      = st.p_feature_data.drop cfg.kFeatureSliceSize ∧
    (addSlice cfg frontend st).p_feature_data.drop
        ((cfg.kFeatureSliceCount - 1) * cfg.kFeatureSliceSize)
      = (frontend (st.p_buffer.data.take cfg.audioSampleSize)).map generateFeatureValue := by
  have hKeq : (cfg.kFeatureSliceCount - 1) * cfg.kFeatureSliceSize
      = cfg.kFeatureSliceCount * cfg.kFeatureSliceSize - cfg.kFeatureSliceSize := by
    rw [Nat.sub_mul, one_mul]
  have hle : cfg.kFeatureSliceSize ≤ cfg.kFeatureSliceCount * cfg.kFeatureSliceSize :=
    Nat.le_mul_of_pos_left _ hcnt
  have hA : (st.p_feature_data.drop cfg.kFeatureSliceSize).length
      = (cfg.kFeatureSliceCount - 1) * cfg.kFeatureSliceSize := by
    rw [List.length_drop, hfd, hKeq]
  have hB : (st.p_feature_data.drop
        ((cfg.kFeatureSliceCount - 1) * cfg.kFeatureSliceSize)).length
      = cfg.kFeatureSliceSize := by
    rw [List.length_drop, hfd, hKeq]
    omega
  have hmain : (addSlice cfg frontend st).p_feature_data
      = st.p_feature_data.drop cfg.kFeatureSliceSize
        ++ (frontend (st.p_buffer.data.take cfg.audioSampleSize)).map generateFeatureValue := by
    unfold addSlice RingBuffer.readArray
    dsimp only
    rw [List.take_left' rfl]
    rw [List.take_left' hA, List.drop_left' hA]
    have hnil : (st.p_feature_data.drop
          ((cfg.kFeatureSliceCount - 1) * cfg.kFeatureSliceSize)).drop
        (frontend (st.p_buffer.data.take cfg.audioSampleSize)).length = [] :=
      List.drop_eq_nil_of_le (le_of_eq (by rw [hB, hfe]))
    rw [hnil, List.append_nil]
  exact ⟨by rw [hmain, List.take_left' hA], by rw [hmain, List.drop_left' hA]⟩

/-- A small writer configuration for the C4 witness: 3 slices of 2
bands, 4-sample audio window, 2-sample stride. -/
def addSliceCfg : TfLiteConfig :=
  { sample_rate := 1000, kFeatureSliceSize := 2, kFeatureSliceCount := 3,
    kFeatureSliceStrideMs := 2, kFeatureSliceDurationMs := 4 }

/-- A concrete frontend for the C4 witness, always producing two
magnitudes. -/
def addSliceFrontend : List ℤ → List ℕ := fun _ => [5, 6]

/-- A concrete writer state for the C4 witness. -/
def addSliceState : SpeachWriterState :=
  ⟨[1, 2, 3, 4, 5, 6], [0, 0, 0, 0], ⟨4, [10, 20, 30, 40]⟩⟩

/-- Witness for C4 on the concrete 3 x 2 matrix. -/
theorem addSlice_shift_and_append_witness :
    addSliceState.p_feature_data.length
      = addSliceCfg.kFeatureSliceCount * addSliceCfg.kFeatureSliceSize ∧
    1 ≤ addSliceCfg.kFeatureSliceCount ∧
    (addSliceFrontend (addSliceState.p_buffer.data.take addSliceCfg.audioSampleSize)).length
      = addSliceCfg.kFeatureSliceSize ∧
    ((addSlice addSliceCfg addSliceFrontend addSliceState).p_feature_data.take
        ((addSliceCfg.kFeatureSliceCount - 1) * addSliceCfg.kFeatureSliceSize)
      = addSliceState.p_feature_data.drop addSliceCfg.kFeatureSliceSize ∧
    (addSlice addSliceCfg addSliceFrontend addSliceState).p_feature_data.drop
        ((addSliceCfg.kFeatureSliceCount - 1) * addSliceCfg.kFeatureSliceSize)
      = (addSliceFrontend
          (addSliceState.p_buffer.data.take addSliceCfg.audioSampleSize)).map
          generateFeatureValue) :=
  ⟨rfl, by decide, rfl,
    addSlice_shift_and_append addSliceCfg addSliceFrontend addSliceState rfl
      (by decide) rfl⟩

end AudioTools
